import Mathlib

/-!
Shallow embedding of the gdserial library (src/src/lib.rs): the
single-session surface (GdSerial) and the multi-port manager
(GdSerialManager), covering the disconnection classifier, the
configuration setters, the liveness probe, the per-port reader loop with
its buffering state machine, readline, and the event-polling loop.
Bytes are modelled as Nat, Rust i32 arguments as Int, u8 arguments as
Nat, and fallible transport operations as explicit result values fed to
the embedded functions.
-/

namespace GdSerialModel

/-- Kinds of std::io errors that the library inspects (io::ErrorKind). -/
inductive IOErrorKind where
  | notFound
  | permissionDenied
  | connectionRefused
  | connectionReset
  | connectionAborted
  | notConnected
  | addrInUse
  | addrNotAvailable
  | brokenPipe
  | alreadyExists
  | wouldBlock
  | invalidInput
  | invalidData
  | timedOut
  | writeZero
  | interrupted
  | unexpectedEof
  | outOfMemory
  | otherKind
  deriving DecidableEq, Repr

/-- Kinds of serialport::Error (serialport::ErrorKind). -/
inductive SerialErrorKind where
  | noDevice
  | invalidInput
  | unknown
  | io (k : IOErrorKind)
  deriving DecidableEq, Repr

/-- GdSerial::is_io_disconnection_error from src/src/lib.rs lines 561-570:
matches BrokenPipe, ConnectionAborted, NotConnected, UnexpectedEof,
PermissionDenied. -/
def is_io_disconnection_error (k : IOErrorKind) : Bool :=
  match k with
  | IOErrorKind.brokenPipe => true
  | IOErrorKind.connectionAborted => true
  | IOErrorKind.notConnected => true
  | IOErrorKind.unexpectedEof => true
  | IOErrorKind.permissionDenied => true
  | _ => false

/-- GdSerial::is_disconnection_error from src/src/lib.rs lines 542-558:
NoDevice is a disconnection; an Io kind is a disconnection when it is one
of BrokenPipe, ConnectionAborted, NotConnected, UnexpectedEof,
PermissionDenied; everything else is not. -/
def is_disconnection_error (e : SerialErrorKind) : Bool :=
  match e with
  | SerialErrorKind.noDevice => true
  | SerialErrorKind.io k =>
    match k with
    | IOErrorKind.brokenPipe => true
    | IOErrorKind.connectionAborted => true
    | IOErrorKind.notConnected => true
    | IOErrorKind.unexpectedEof => true
    | IOErrorKind.permissionDenied => true
    | _ => false
  | _ => false

/-- Spec-side predicate, written from the spec's words (section 4.1): the
error denotes device-absent, broken-pipe, connection-aborted,
not-connected, unexpected-end-of-stream, or permission-denied. -/
def denotesDisconnectionSpec (e : SerialErrorKind) : Prop :=
  e = SerialErrorKind.noDevice ∨
  e = SerialErrorKind.io IOErrorKind.brokenPipe ∨
  e = SerialErrorKind.io IOErrorKind.connectionAborted ∨
  e = SerialErrorKind.io IOErrorKind.notConnected ∨
  e = SerialErrorKind.io IOErrorKind.unexpectedEof ∨
  e = SerialErrorKind.io IOErrorKind.permissionDenied

/-- Spec-side predicate at the io::Error level, from the same spec rule. -/
def ioDenotesDisconnectionSpec (k : IOErrorKind) : Prop :=
  k = IOErrorKind.brokenPipe ∨
  k = IOErrorKind.connectionAborted ∨
  k = IOErrorKind.notConnected ∨
  k = IOErrorKind.unexpectedEof ∨
  k = IOErrorKind.permissionDenied

/-- Stored data-bits values (serialport::DataBits). -/
inductive DataBits where
  | six
  | seven
  | eight
  deriving DecidableEq, Repr

/-- Stored parity values (serialport::Parity). -/
inductive ParityKind where
  | pnone
  | odd
  | even
  deriving DecidableEq, Repr

/-- Stored stop-bits values (serialport::StopBits). -/
inductive StopBitsKind where
  | one
  | two
  deriving DecidableEq, Repr

/-- Stored flow-control values (serialport::FlowControl). -/
inductive FlowControlKind where
  | fnone
  | software
  | hardware
  deriving DecidableEq, Repr

/-- GdSerial::set_data_bits from src/src/lib.rs lines 678-693: 6, 7, 8
store the corresponding value; anything else logs an error and stores
nothing. The returned Bool records whether an error was logged. -/
def set_data_bits (cur : DataBits) (v : Nat) : DataBits × Bool :=
  if v = 6 then (DataBits.six, false)
  else if v = 7 then (DataBits.seven, false)
  else if v = 8 then (DataBits.eight, false)
  else (cur, true)

/-- GdSerial::set_parity from src/src/lib.rs lines 696-708: 1 stores Odd,
2 stores Even, and every other value stores None with no error logged. -/
def set_parity (cur : ParityKind) (v : Int) : ParityKind × Bool :=
  if v = 1 then (ParityKind.odd, false)
  else if v = 2 then (ParityKind.even, false)
  else (ParityKind.pnone, false)

/-- GdSerial::set_stop_bits from src/src/lib.rs lines 711-723: 1 and 2
store the corresponding value; anything else logs an error and stores
nothing. -/
def set_stop_bits (cur : StopBitsKind) (v : Nat) : StopBitsKind × Bool :=
  if v = 1 then (StopBitsKind.one, false)
  else if v = 2 then (StopBitsKind.two, false)
  else (cur, true)

/-- GdSerial::set_flow_control from src/src/lib.rs lines 726-741: 0, 1, 2
store the corresponding value; anything else logs an error and stores
nothing. -/
def set_flow_control (cur : FlowControlKind) (v : Nat) : FlowControlKind × Bool :=
  if v = 0 then (FlowControlKind.fnone, false)
  else if v = 1 then (FlowControlKind.software, false)
  else if v = 2 then (FlowControlKind.hardware, false)
  else (cur, true)

/-- Connection-relevant state of a GdSerial session: whether a transport
handle is held (port.is_some()) and the cached connected flag. -/
structure SessionState where
  hasPort : Bool
  isConnected : Bool
  deriving DecidableEq, Repr

/-- GdSerial::test_connection from src/src/lib.rs lines 591-617: with no
transport held it returns false; otherwise it issues bytes_to_read on the
transport (the result is passed in as probe); success returns true and
leaves the state alone; any error at all discards the transport, clears
the cached flag and returns false. -/
def test_connection (st : SessionState) (probe : Except SerialErrorKind Nat) :
    SessionState × Bool :=
  if st.hasPort = false then (st, false)
  else
    match probe with
    | Except.ok _ => (st, true)
    | Except.error _ => ({ hasPort := false, isConnected := false }, false)

/-- BufferingMode from src/src/lib.rs lines 71-75. -/
inductive BufferingMode where
  | raw
  | lineBuffered
  | customDelimiter (d : Nat)
  deriving DecidableEq, Repr

/-- ReaderEvent from src/src/lib.rs lines 64-67: messages sent from a
reader thread to the manager's queue. -/
inductive ReaderEvent where
  | data (port : String) (bytes : List Nat)
  | disconnected (port : String)
  deriving DecidableEq, Repr

/-- Outcome of one bounded transport read inside the reader loop:
Ok(n) carries the n bytes read (the empty list models Ok(0)), a timeout
is io::ErrorKind::TimedOut, and hardError is any other read error. -/
inductive ReadResult where
  | ok (chunk : List Nat)
  | timedOut
  | hardError
  deriving DecidableEq, Repr

/-- Byte-by-byte delimiter framing shared by the LineBuffered arm
(delimiter 10, src/src/lib.rs lines 200-213) and the CustomDelimiter arm
(lines 214-227) of the reader loop: each byte is pushed onto the
accumulator, and when the pushed byte equals the delimiter the
accumulator is emitted as one message (delimiter included) and cleared.
Returns the emitted messages in order and the final accumulator. -/
def feedBytesLB (d : Nat) : List Nat → List Nat → List (List Nat) × List Nat
  | acc, [] => ([], acc)
  | acc, b :: rest =>
    if b = d then
      let r := feedBytesLB d [] rest
      ((acc ++ [b]) :: r.1, r.2)
    else
      feedBytesLB d (acc ++ [b]) rest

/-- The Ok(n) arm of the reader loop for a nonempty chunk
(src/src/lib.rs lines 191-228): Raw emits the chunk immediately and
never touches the accumulator; LineBuffered frames on byte 10;
CustomDelimiter(d) frames on byte d. -/
def processChunk (mode : BufferingMode) (acc : List Nat) (chunk : List Nat) :
    List (List Nat) × List Nat :=
  match mode with
  | BufferingMode.raw => ([chunk], acc)
  | BufferingMode.lineBuffered => feedBytesLB 10 acc chunk
  | BufferingMode.customDelimiter d => feedBytesLB d acc chunk

/-- The reader loop of GdSerialManager::spawn_reader_thread
(src/src/lib.rs lines 171-249) run over a script of read results, with
the captured buffering mode and the current line_buffer: Ok(0) does
nothing; Ok(n) feeds the chunk to the buffering machine and sends each
framed message; a timeout emits the accumulator when it is nonempty and
the mode is not Raw; any other error sends Disconnected and breaks.
Returns the events sent in order and the final accumulator. -/
def runReader (port : String) (mode : BufferingMode) :
    List Nat → List ReadResult → List ReaderEvent × List Nat
  | acc, [] => ([], acc)
  | acc, ReadResult.ok [] :: rest => runReader port mode acc rest
  | acc, ReadResult.ok (b :: bs) :: rest =>
    let r := processChunk mode acc (b :: bs)
    let t := runReader port mode r.2 rest
    (r.1.map (ReaderEvent.data port) ++ t.1, t.2)
  | acc, ReadResult.timedOut :: rest =>
    if acc ≠ [] ∧ mode ≠ BufferingMode.raw then
      let t := runReader port mode [] rest
      (ReaderEvent.data port acc :: t.1, t.2)
    else
      runReader port mode acc rest
  | acc, ReadResult.hardError :: _ => ([ReaderEvent.disconnected port], acc)

/-- Spec-side characterization of Raw-mode output, written from the
spec's words: every nonempty chunk becomes its own message, in order;
empty reads and timeouts produce nothing. -/
def rawEmitsSpec : List ReadResult → List (List Nat)
  | [] => []
  | ReadResult.ok [] :: rest => rawEmitsSpec rest
  | ReadResult.ok (b :: bs) :: rest => (b :: bs) :: rawEmitsSpec rest
  | ReadResult.timedOut :: rest => rawEmitsSpec rest
  | ReadResult.hardError :: rest => rawEmitsSpec rest

/-- Outcome of one single-byte transport read inside GdSerial::readline:
Ok(0), Ok(1) with the byte, or an error of the given kind. -/
inductive ByteReadResult where
  | ok0
  | okByte (b : Nat)
  | err (k : IOErrorKind)
  deriving DecidableEq, Repr

/-- The accumulation loop of GdSerial::readline (src/src/lib.rs lines
930-961) run over a script of byte reads, carrying the line collected so
far: Ok(0) breaks; a byte equal to 10 breaks without being pushed; a
byte equal to 13 is dropped; any other byte is pushed; a TimedOut error
breaks; any other error breaks when the line is nonempty or the kind is
WouldBlock, and otherwise returns the empty line as a logged failure.
The result pairs the returned line with whether that failure path was
taken; it is none when the script ends before the loop does. -/
def readlineLoop : List Nat → List ByteReadResult → Option (List Nat × Bool)
  | _, [] => none
  | line, ByteReadResult.ok0 :: _ => some (line, false)
  | line, ByteReadResult.okByte b :: rest =>
    if b = 10 then some (line, false)
    else if b = 13 then readlineLoop line rest
    else readlineLoop (line ++ [b]) rest
  | line, ByteReadResult.err k :: rest =>
    if k = IOErrorKind.timedOut then some (line, false)
    else if line = [] ∧ k ≠ IOErrorKind.wouldBlock then some ([], true)
    else some (line, false)

/-- Per-port state kept by the manager model: the entry of the
port_modes map, the mode value captured by the spawned reader thread
(spawn_reader_thread takes BufferingMode by value, src/src/lib.rs line
166), and the reader thread's private line_buffer. -/
structure PortEntry where
  mode : BufferingMode
  readerMode : BufferingMode
  readerAcc : List Nat
  deriving DecidableEq, Repr

/-- State of a GdSerialManager: the registry keyed by port name and the
contents of the mpsc event channel, oldest first. -/
structure ManagerState where
  ports : List (String × PortEntry)
  queue : List ReaderEvent
  deriving DecidableEq, Repr

/-- Lookup of a registry entry by port name. -/
def lookupPort : List (String × PortEntry) → String → Option PortEntry
  | [], _ => none
  | e :: rest, name => if e.1 = name then some e.2 else lookupPort rest name

/-- Removal of a registry entry by port name. -/
def removePort (l : List (String × PortEntry)) (name : String) :
    List (String × PortEntry) :=
  l.filter (fun e => decide (e.1 ≠ name))

/-- In-place update of a registry entry by port name. -/
def updatePort (l : List (String × PortEntry)) (name : String) (v : PortEntry) :
    List (String × PortEntry) :=
  l.map (fun e => if e.1 = name then (e.1, v) else e)

/-- GdSerialManager::close_port from src/src/lib.rs lines 300-321: sets
the stop flag, joins the reader thread and removes every map entry for
the name; in the model this is removal of the registry entry. -/
def close_port (st : ManagerState) (name : String) : ManagerState :=
  { st with ports := removePort st.ports name }

/-- Mode-argument conversion inside GdSerialManager::open_port
(src/src/lib.rs lines 259-263): 0 is Raw, 2 is CustomDelimiter(10), and
mode 1 as well as every other value is LineBuffered. -/
def modeFromInt (mode : Int) : BufferingMode :=
  if mode = 0 then BufferingMode.raw
  else if mode = 2 then BufferingMode.customDelimiter 10
  else BufferingMode.lineBuffered

/-- GdSerialManager::open_port from src/src/lib.rs lines 252-297: closes
any existing entry first, converts the mode argument, then attempts to
open the transport (openOk says whether the OS open succeeds); on
success it registers the entry and spawns the reader thread with the
mode passed by value, returning true; on failure it returns false with
no new entry. -/
def open_port (st : ManagerState) (name : String) (mode : Int) (openOk : Bool) :
    ManagerState × Bool :=
  let st1 := close_port st name
  let bm := modeFromInt mode
  if openOk then
    ({ st1 with
        ports := (name, { mode := bm, readerMode := bm, readerAcc := [] }) :: st1.ports },
      true)
  else (st1, false)

/-- GdSerialManager::set_delimiter from src/src/lib.rs lines 334-344:
when the name is in the port_modes map, overwrite that entry with
CustomDelimiter(delimiter as u8) and return true; otherwise log and
return false. Only the map cell changes; the reader thread's captured
mode is untouched. -/
def set_delimiter (st : ManagerState) (name : String) (delimiter : Int) :
    ManagerState × Bool :=
  match lookupPort st.ports name with
  | some e =>
    ({ st with
        ports := updatePort st.ports name
          { e with mode := BufferingMode.customDelimiter (delimiter % 256).toNat } },
      true)
  | none => (st, false)

/-- One delivery of a read result to the reader thread of the named
port: the thread frames with its captured readerMode (never with the
port_modes cell) and appends the produced events to the channel. -/
def readerStep (st : ManagerState) (name : String) (r : ReadResult) : ManagerState :=
  match lookupPort st.ports name with
  | none => st
  | some e =>
    let res := runReader name e.readerMode e.readerAcc [r]
    { st with
        ports := updatePort st.ports name { e with readerAcc := res.2 },
        queue := st.queue ++ res.1 }

/-- Events as returned to the host by poll_events: one dictionary per
drained event (src/src/lib.rs lines 481-515), mirroring the signal that
is emitted for it. -/
inductive PolledEvent where
  | dataOut (port : String) (bytes : List Nat)
  | discOut (port : String)
  deriving DecidableEq, Repr

/-- Conversion of a drained queue event to its host-visible form. -/
def toPolled : ReaderEvent → PolledEvent
  | ReaderEvent.data p b => PolledEvent.dataOut p b
  | ReaderEvent.disconnected p => PolledEvent.discOut p

/-- Registry effect of one drained event inside poll_events: a Data
event only relays; a Disconnected event additionally performs close_port
for its id (src/src/lib.rs line 512). -/
def applyEvent (st : ManagerState) (ev : ReaderEvent) : ManagerState :=
  match ev with
  | ReaderEvent.data _ _ => st
  | ReaderEvent.disconnected p => close_port st p

/-- GdSerialManager::poll_events from src/src/lib.rs lines 465-518:
drains the whole channel without blocking, then for each drained event
emits the matching signal, appends the matching dictionary to the
returned array, and closes the port of each Disconnected event. Returns
the host-visible events and the new manager state. -/
def poll_events (st : ManagerState) : List PolledEvent × ManagerState :=
  (st.queue.map toPolled, st.queue.foldl applyEvent { st with queue := [] })

/-! Helper lemmas about the buffering machine, the reader loop, the
registry and the readline loop. -/

theorem feed_join (d : Nat) : ∀ (chunk acc : List Nat),
    (feedBytesLB d acc chunk).1.flatten ++ (feedBytesLB d acc chunk).2 = acc ++ chunk
  | [], acc => by simp [feedBytesLB]
  | b :: rest, acc => by
    by_cases h : b = d
    · have ih := feed_join d rest []
      simp [feedBytesLB, h, ih]
    · have ih := feed_join d rest (acc ++ [b])
      simp [feedBytesLB, h, ih]

theorem feed_msgs (d : Nat) : ∀ (chunk acc : List Nat), d ∉ acc →
    ∀ m ∈ (feedBytesLB d acc chunk).1, m.getLast? = some d ∧ ∀ x ∈ m.dropLast, x ≠ d
  | [], acc => by intro _ m hm; simp [feedBytesLB] at hm
  | b :: rest, acc => by
    intro hacc m hm
    by_cases h : b = d
    · simp [feedBytesLB, h] at hm
      rcases hm with h1 | h2
      · subst h1
        refine ⟨List.getLast?_concat acc, ?_⟩
        intro x hx
        rw [List.dropLast_concat] at hx
        intro hxd; subst hxd; exact hacc hx
      · exact feed_msgs d rest [] (by simp) m h2
    · simp [feedBytesLB, h] at hm
      refine feed_msgs d rest (acc ++ [b]) ?_ m hm
      intro hmem
      rcases List.mem_append.mp hmem with h1 | h2
      · exact hacc h1
      · simp at h2; exact h h2.symm

theorem feed_acc (d : Nat) : ∀ (chunk acc : List Nat), d ∉ acc →
    d ∉ (feedBytesLB d acc chunk).2
  | [], acc => by intro hacc; simpa [feedBytesLB] using hacc
  | b :: rest, acc => by
    intro hacc
    by_cases h : b = d
    · simpa [feedBytesLB, h] using feed_acc d rest [] (by simp)
    · simp only [feedBytesLB, if_neg h]
      refine feed_acc d rest (acc ++ [b]) ?_
      intro hmem
      rcases List.mem_append.mp hmem with h1 | h2
      · exact hacc h1
      · simp at h2; exact h h2.symm

theorem runReader_raw (p : String) : ∀ (inputs : List ReadResult) (acc : List Nat),
    ReadResult.hardError ∉ inputs →
    runReader p BufferingMode.raw acc inputs = ((rawEmitsSpec inputs).map (ReaderEvent.data p), acc)
  | [], acc => by intro _; simp [runReader, rawEmitsSpec]
  | ReadResult.ok [] :: rest, acc => by
    intro h
    simp only [runReader, rawEmitsSpec]
    exact runReader_raw p rest acc (fun hm => h (List.mem_cons_of_mem _ hm))
  | ReadResult.ok (b :: bs) :: rest, acc => by
    intro h
    simp only [runReader, rawEmitsSpec, processChunk]
    rw [runReader_raw p rest acc (fun hm => h (List.mem_cons_of_mem _ hm))]
    simp
  | ReadResult.timedOut :: rest, acc => by
    intro h
    simp only [runReader, rawEmitsSpec]
    rw [if_neg (by simp)]
    exact runReader_raw p rest acc (fun hm => h (List.mem_cons_of_mem _ hm))
  | ReadResult.hardError :: rest, acc => by
    intro h; exact absurd (List.mem_cons_self _ _) h

theorem applyEvent_queue (st : ManagerState) (ev : ReaderEvent) :
    (applyEvent st ev).queue = st.queue := by
  cases ev <;> rfl

theorem foldl_applyEvent_queue : ∀ (evs : List ReaderEvent) (st : ManagerState),
    (evs.foldl applyEvent st).queue = st.queue
  | [], st => rfl
  | ev :: rest, st => by
    rw [List.foldl_cons, foldl_applyEvent_queue rest, applyEvent_queue]

theorem lookup_removePort_self (l : List (String × PortEntry)) (name : String) :
    lookupPort (removePort l name) name = none := by
  induction l with
  | nil => rfl
  | cons e rest ih =>
    by_cases h : e.1 = name
    · simpa [removePort, List.filter, h] using ih
    · simpa [removePort, List.filter, h, lookupPort] using ih

theorem lookup_none_removePort (l : List (String × PortEntry)) (p q : String)
    (h : lookupPort l p = none) : lookupPort (removePort l q) p = none := by
  induction l with
  | nil => rfl
  | cons e rest ih =>
    simp only [lookupPort] at h
    by_cases h1 : e.1 = p
    · simp [h1] at h
    · simp only [if_neg h1] at h
      by_cases h2 : e.1 = q
      · simpa [removePort, List.filter, h2] using ih h
      · simpa [removePort, List.filter, h2, lookupPort, h1] using ih h

theorem lookup_none_applyEvent (st : ManagerState) (ev : ReaderEvent) (p : String)
    (h : lookupPort st.ports p = none) : lookupPort (applyEvent st ev).ports p = none := by
  cases ev with
  | data _ _ => exact h
  | disconnected q => exact lookup_none_removePort st.ports p q h

theorem lookup_none_foldl : ∀ (evs : List ReaderEvent) (st : ManagerState) (p : String),
    lookupPort st.ports p = none → lookupPort (evs.foldl applyEvent st).ports p = none
  | [], _, _, h => h
  | ev :: rest, st, p, h =>
    lookup_none_foldl rest (applyEvent st ev) p (lookup_none_applyEvent st ev p h)

theorem disconnected_removed : ∀ (evs : List ReaderEvent) (st : ManagerState) (p : String),
    ReaderEvent.disconnected p ∈ evs →
    lookupPort (evs.foldl applyEvent st).ports p = none
  | [], _, _, h => absurd h (List.not_mem_nil _)
  | ev :: rest, st, p, h => by
    rcases List.mem_cons.mp h with h1 | h2
    · subst h1
      exact lookup_none_foldl rest _ p (lookup_removePort_self st.ports p)
    · exact disconnected_removed rest (applyEvent st ev) p h2

theorem poll_events_of_empty (st : ManagerState) (h : st.queue = []) :
    poll_events st = ([], st) := by
  cases st with
  | mk ports queue =>
    simp only at h
    subst h
    rfl

theorem readlineLoop_no_crlf : ∀ (script : List ByteReadResult) (line : List Nat),
    (10 : Nat) ∉ line → (13 : Nat) ∉ line →
    ∀ p ∈ readlineLoop line script, (10 : Nat) ∉ p.1 ∧ (13 : Nat) ∉ p.1
  | [], line, _, _ => by intro p hp; simp [readlineLoop] at hp
  | ByteReadResult.ok0 :: rest, line, h10, h13 => by
    intro p hp
    simp [readlineLoop, Option.mem_def] at hp
    subst hp
    exact ⟨h10, h13⟩
  | ByteReadResult.okByte b :: rest, line, h10, h13 => by
    intro p hp
    by_cases hb10 : b = 10
    · simp [readlineLoop, hb10, Option.mem_def] at hp
      subst hp
      exact ⟨h10, h13⟩
    · by_cases hb13 : b = 13
      · simp only [readlineLoop, if_neg hb10, hb13, if_pos rfl] at hp
        exact readlineLoop_no_crlf rest line h10 h13 p hp
      · simp only [readlineLoop, if_neg hb10, if_neg hb13] at hp
        refine readlineLoop_no_crlf rest (line ++ [b]) ?_ ?_ p hp
        · intro hm
          rcases List.mem_append.mp hm with h1 | h2
          · exact h10 h1
          · simp at h2; exact hb10 h2.symm
        · intro hm
          rcases List.mem_append.mp hm with h1 | h2
          · exact h13 h1
          · simp at h2; exact hb13 h2.symm
  | ByteReadResult.err k :: rest, line, h10, h13 => by
    intro p hp
    by_cases hk : k = IOErrorKind.timedOut
    · simp [readlineLoop, hk, Option.mem_def] at hp
      subst hp
      exact ⟨h10, h13⟩
    · by_cases hl : line = [] ∧ k ≠ IOErrorKind.wouldBlock
      · simp only [readlineLoop, if_neg hk, if_pos hl, Option.mem_def, Option.some.injEq] at hp
        subst hp
        exact ⟨by simp, by simp⟩
      · simp only [readlineLoop, if_neg hk, if_neg hl, Option.mem_def, Option.some.injEq] at hp
        subst hp
        exact ⟨h10, h13⟩

/-! Claim theorems. -/

/-- C1: evaluation of the code at the failing input. open_port with mode 1
registers LineBuffered and the reader thread captures that mode by value;
set_delimiter then returns true and rewrites the port_modes cell to
CustomDelimiter(124), but the running reader keeps its captured
LineBuffered mode, so the next chunk [120, 124, 121] is still framed on
byte 10: nothing is emitted and all three bytes stay in the accumulator,
whereas framing on byte 124 would have emitted the message [120, 124]. -/
theorem set_delimiter_reader_unaffected_eval :
    (let st0 := (open_port { ports := [], queue := [] } "p" 1 true).1
     let r1 := set_delimiter st0 "p" 124
     let st2 := readerStep r1.1 "p" (ReadResult.ok [120, 124, 121])
     r1.2 = true ∧
     (lookupPort r1.1.ports "p").map PortEntry.mode
       = some (BufferingMode.customDelimiter 124) ∧
     (lookupPort r1.1.ports "p").map PortEntry.readerMode
       = some BufferingMode.lineBuffered ∧
     st2.queue = [] ∧
     (lookupPort st2.ports "p").map PortEntry.readerAcc = some [120, 124, 121] ∧
     (feedBytesLB 124 [] [120, 124, 121]).1 = [[120, 124]]) := by
  decide

/-- C2 counterexample: with a transport held, a bytes-available query
failing with TimedOut -- an error the classifier does not mark as a
disconnection -- still makes test_connection discard the transport,
clear the cached flag and return false, contradicting the claim that a
Transient-classified error leaves the session open and returns true. -/
theorem test_connection_transient_error_counterexample :
    test_connection { hasPort := true, isConnected := true }
      (Except.error (SerialErrorKind.io IOErrorKind.timedOut))
      = ({ hasPort := false, isConnected := false }, false) ∧
    is_disconnection_error (SerialErrorKind.io IOErrorKind.timedOut) = false := by
  decide

/-- C2 amended: for every held transport, a successful bytes-available
query makes the probe return true with the session unchanged, and any
error at all -- regardless of its classification -- tears the session
down (transport discarded, cached flag cleared) and makes the probe
return false. -/
theorem test_connection_any_error_teardown (st : SessionState) (h : st.hasPort = true) :
    (∀ e, test_connection st (Except.error e)
        = ({ hasPort := false, isConnected := false }, false)) ∧
    (∀ n, test_connection st (Except.ok n) = (st, true)) := by
  constructor
  · intro e; simp [test_connection, h]
  · intro n; simp [test_connection, h]

/-- C2 witness: the amended theorem applied to a concrete session with a
concrete non-disconnection error and a concrete successful query. -/
theorem test_connection_any_error_teardown_witness :
    test_connection { hasPort := true, isConnected := true }
      (Except.error (SerialErrorKind.io IOErrorKind.otherKind))
      = ({ hasPort := false, isConnected := false }, false) ∧
    test_connection { hasPort := true, isConnected := true } (Except.ok 0)
      = ({ hasPort := true, isConnected := true }, true) :=
  ⟨(test_connection_any_error_teardown { hasPort := true, isConnected := true } rfl).1
      (SerialErrorKind.io IOErrorKind.otherKind),
   (test_connection_any_error_teardown { hasPort := true, isConnected := true } rfl).2 0⟩

/-- C3 counterexample: set_parity with the out-of-domain value 7 and
prior stored value Odd stores None -- altering the stored field -- and
logs no error, contradicting the claim that every setter of the
single-session surface rejects out-of-domain input with the previous
value retained. -/
theorem set_parity_out_of_domain_counterexample :
    set_parity ParityKind.odd 7 = (ParityKind.pnone, false) ∧
    ParityKind.pnone ≠ ParityKind.odd := by
  decide

/-- C3 amended: set_data_bits, set_stop_bits and set_flow_control reject
every out-of-domain value, logging an error and leaving the stored field
unchanged -- in particular a data-bits value outside 6, 7, 8 never
alters the stored data-bits field -- while set_parity maps every value
other than 1 and 2, out-of-domain ones included, to None without logging,
which can alter the previously stored parity. -/
theorem setters_validation_amended :
    (∀ (cur : DataBits) (v : Nat), v ≠ 6 → v ≠ 7 → v ≠ 8 →
      set_data_bits cur v = (cur, true)) ∧
    (∀ (cur : StopBitsKind) (v : Nat), v ≠ 1 → v ≠ 2 →
      set_stop_bits cur v = (cur, true)) ∧
    (∀ (cur : FlowControlKind) (v : Nat), v ≠ 0 → v ≠ 1 → v ≠ 2 →
      set_flow_control cur v = (cur, true)) ∧
    (∀ (cur : ParityKind) (v : Int), v ≠ 1 → v ≠ 2 →
      set_parity cur v = (ParityKind.pnone, false)) := by
  refine ⟨?_, ?_, ?_, ?_⟩ <;> intros <;>
    simp_all [set_data_bits, set_stop_bits, set_flow_control, set_parity]

/-- C3 witness: the amended theorem applied to concrete out-of-domain
inputs for each setter. -/
theorem setters_validation_amended_witness :
    set_data_bits DataBits.eight 9 = (DataBits.eight, true) ∧
    set_stop_bits StopBitsKind.one 3 = (StopBitsKind.one, true) ∧
    set_flow_control FlowControlKind.fnone 5 = (FlowControlKind.fnone, true) ∧
    set_parity ParityKind.odd 7 = (ParityKind.pnone, false) :=
  ⟨setters_validation_amended.1 DataBits.eight 9 (by decide) (by decide) (by decide),
   setters_validation_amended.2.1 StopBitsKind.one 3 (by decide) (by decide),
   setters_validation_amended.2.2.1 FlowControlKind.fnone 5 (by decide) (by decide) (by decide),
   setters_validation_amended.2.2.2 ParityKind.odd 7 (by decide) (by decide)⟩

/-- C4: the disconnection classifier returns true exactly on the errors
the spec lists -- device-absent (NoDevice), broken-pipe,
connection-aborted, not-connected, unexpected-end-of-stream and
permission-denied -- and false on every other error kind; likewise for
the io-level classifier used on raw io errors. -/
theorem disconnection_classifier_iff_spec :
    (∀ e, is_disconnection_error e = true ↔ denotesDisconnectionSpec e) ∧
    (∀ k, is_io_disconnection_error k = true ↔ ioDenotesDisconnectionSpec k) := by
  constructor
  · intro e
    cases e
    case io k =>
      cases k <;> simp [is_disconnection_error, denotesDisconnectionSpec]
    all_goals simp [is_disconnection_error, denotesDisconnectionSpec]
  · intro k
    cases k <;> simp [is_io_disconnection_error, ioDenotesDisconnectionSpec]

/-- C5: under LineBuffered framing, feeding any chunk with any
accumulator that holds no line-feed byte loses no bytes (the emitted
messages joined with the new accumulator equal the old accumulator
followed by the chunk), every emitted message ends with the line-feed
byte and holds it nowhere else, and the new accumulator holds no
line-feed; a read timeout with a nonempty accumulator emits it as one
message and clears it; and the scripted chunks ab, c-newline, de followed
by a timeout emit exactly abc-newline and then de. -/
theorem lineDelimited_framing :
    (∀ (acc chunk : List Nat), (10 : Nat) ∉ acc →
      (feedBytesLB 10 acc chunk).1.flatten ++ (feedBytesLB 10 acc chunk).2 = acc ++ chunk ∧
      (∀ m ∈ (feedBytesLB 10 acc chunk).1,
        m.getLast? = some 10 ∧ ∀ x ∈ m.dropLast, x ≠ 10) ∧
      (10 : Nat) ∉ (feedBytesLB 10 acc chunk).2) ∧
    (∀ (p : String) (acc : List Nat), acc ≠ [] →
      runReader p BufferingMode.lineBuffered acc [ReadResult.timedOut]
        = ([ReaderEvent.data p acc], [])) ∧
    runReader "p" BufferingMode.lineBuffered []
      [ReadResult.ok [97, 98], ReadResult.ok [99, 10], ReadResult.ok [100, 101],
        ReadResult.timedOut]
      = ([ReaderEvent.data "p" [97, 98, 99, 10], ReaderEvent.data "p" [100, 101]], []) := by
  refine ⟨?_, ?_, by decide⟩
  · intro acc chunk h
    exact ⟨feed_join 10 chunk acc, feed_msgs 10 chunk acc h, feed_acc 10 chunk acc h⟩
  · intro p acc h
    simp [runReader, h]

/-- C5 witness: the framing part applied to a concrete accumulator and
chunk, and the timeout part applied to a concrete nonempty accumulator. -/
theorem lineDelimited_framing_witness :
    (feedBytesLB 10 [] [97, 10, 98]).1.flatten ++ (feedBytesLB 10 [] [97, 10, 98]).2
      = [] ++ [97, 10, 98] ∧
    runReader "q" BufferingMode.lineBuffered [104] [ReadResult.timedOut]
      = ([ReaderEvent.data "q" [104]], []) :=
  ⟨(lineDelimited_framing.1 [] [97, 10, 98] (by decide)).1,
   lineDelimited_framing.2.1 "q" [104] (by decide)⟩

/-- C6: under Raw framing, any run of the reader loop without a hard
error emits exactly the nonempty chunks, each verbatim as its own
message in order, never touching the accumulator; the chunks A then B
give the two separate messages A and B; and a timeout emits nothing. -/
theorem raw_mode_no_buffering :
    (∀ (p : String) (inputs : List ReadResult) (acc : List Nat),
      ReadResult.hardError ∉ inputs →
      runReader p BufferingMode.raw acc inputs
        = ((rawEmitsSpec inputs).map (ReaderEvent.data p), acc)) ∧
    runReader "p" BufferingMode.raw [] [ReadResult.ok [65], ReadResult.ok [66]]
      = ([ReaderEvent.data "p" [65], ReaderEvent.data "p" [66]], []) ∧
    (∀ (p : String) (acc : List Nat),
      runReader p BufferingMode.raw acc [ReadResult.timedOut] = ([], acc)) := by
  refine ⟨fun p inputs acc h => runReader_raw p inputs acc h, by decide, ?_⟩
  intro p acc
  simp [runReader]

/-- C6 witness: the general Raw characterization applied to a concrete
error-free script with a timeout in the middle. -/
theorem raw_mode_no_buffering_witness :
    runReader "p" BufferingMode.raw []
      [ReadResult.ok [65], ReadResult.timedOut, ReadResult.ok [66]]
      = ([ReaderEvent.data "p" [65], ReaderEvent.data "p" [66]], []) :=
  raw_mode_no_buffering.1 "p"
    [ReadResult.ok [65], ReadResult.timedOut, ReadResult.ok [66]] [] (by decide)

/-- C7: whenever the readline loop has already accumulated a nonempty
line, a read error of any kind -- timeout included -- ends the loop and
returns exactly that line, not the empty string and not the logged
failure path; an Ok(0) read likewise returns the accumulated line; and
the concrete script h, e, l then timeout returns hel. -/
theorem readline_returns_accumulated_on_error :
    (∀ (line : List Nat) (rest : List ByteReadResult) (k : IOErrorKind), line ≠ [] →
      readlineLoop line (ByteReadResult.err k :: rest) = some (line, false)) ∧
    (∀ (line : List Nat) (rest : List ByteReadResult),
      readlineLoop line (ByteReadResult.ok0 :: rest) = some (line, false)) ∧
    readlineLoop [] [ByteReadResult.okByte 104, ByteReadResult.okByte 101,
      ByteReadResult.okByte 108, ByteReadResult.err IOErrorKind.timedOut]
      = some ([104, 101, 108], false) := by
  refine ⟨?_, fun line rest => rfl, by decide⟩
  intro line rest k h
  by_cases hk : k = IOErrorKind.timedOut
  · simp [readlineLoop, hk]
  · simp [readlineLoop, hk, h]

/-- C7 witness: the error part applied to the concrete accumulated line
hel and a timeout error. -/
theorem readline_returns_accumulated_on_error_witness :
    readlineLoop [104, 101, 108] [ByteReadResult.err IOErrorKind.timedOut]
      = some ([104, 101, 108], false) :=
  readline_returns_accumulated_on_error.1 [104, 101, 108] []
    IOErrorKind.timedOut (by decide)

/-- C8: poll_events returns the entire current queue contents converted
to host-visible events in order, leaves the queue empty, acts as the
identity returning no events when called again with no intervening
activity, and removes the registry entry of every port named by a
drained Disconnected event. -/
theorem poll_events_drain_spec (st : ManagerState) :
    (poll_events st).1 = st.queue.map toPolled ∧
    (poll_events st).2.queue = [] ∧
    poll_events (poll_events st).2 = ([], (poll_events st).2) ∧
    (∀ p, ReaderEvent.disconnected p ∈ st.queue →
      lookupPort (poll_events st).2.ports p = none) := by
  have hq : (poll_events st).2.queue = [] := by
    simpa [poll_events] using foldl_applyEvent_queue st.queue { st with queue := [] }
  refine ⟨rfl, hq, poll_events_of_empty _ hq, ?_⟩
  intro p hp
  exact disconnected_removed st.queue _ p hp

/-- C8 witness: the Disconnected part applied to a concrete state whose
queue holds a Disconnected event for a registered port. -/
theorem poll_events_drain_spec_witness :
    lookupPort (poll_events
      { ports := [("p", { mode := BufferingMode.raw, readerMode := BufferingMode.raw,
                          readerAcc := [] })],
        queue := [ReaderEvent.disconnected "p"] }).2.ports "p" = none :=
  (poll_events_drain_spec
      { ports := [("p", { mode := BufferingMode.raw, readerMode := BufferingMode.raw,
                          readerAcc := [] })],
        queue := [ReaderEvent.disconnected "p"] }).2.2.2 "p" (List.mem_cons_self _ _)

/-- C9: open_port with any mode argument other than 0 and 2 -- 3 and -1
included -- converts it to LineBuffered, succeeds exactly when the
transport opens, and on success registers the port with LineBuffered
framing both in the mode cell and in the spawned reader; no mode value
is rejected. -/
theorem open_port_invalid_mode_line_buffered (st : ManagerState) (name : String)
    (m : Int) (ok : Bool) (h0 : m ≠ 0) (h2 : m ≠ 2) :
    modeFromInt m = BufferingMode.lineBuffered ∧
    (open_port st name m ok).2 = ok ∧
    (ok = true → lookupPort (open_port st name m ok).1.ports name =
      some { mode := BufferingMode.lineBuffered, readerMode := BufferingMode.lineBuffered,
             readerAcc := [] }) := by
  have hm : modeFromInt m = BufferingMode.lineBuffered := by
    simp [modeFromInt, h0, h2]
  refine ⟨hm, ?_, ?_⟩
  · cases ok <;> simp [open_port]
  · intro hok
    subst hok
    simp [open_port, hm, lookupPort]

/-- C9 witness: the theorem applied to the concrete invalid mode values
3 and -1. -/
theorem open_port_invalid_mode_line_buffered_witness :
    lookupPort (open_port { ports := [], queue := [] } "p" 3 true).1.ports "p"
      = some { mode := BufferingMode.lineBuffered, readerMode := BufferingMode.lineBuffered,
               readerAcc := [] } ∧
    lookupPort (open_port { ports := [], queue := [] } "p" (-1) true).1.ports "p"
      = some { mode := BufferingMode.lineBuffered, readerMode := BufferingMode.lineBuffered,
               readerAcc := [] } :=
  ⟨(open_port_invalid_mode_line_buffered { ports := [], queue := [] } "p" 3 true
      (by decide) (by decide)).2.2 rfl,
   (open_port_invalid_mode_line_buffered { ports := [], queue := [] } "p" (-1) true
      (by decide) (by decide)).2.2 rfl⟩

/-- C10: whatever byte reads the transport delivers, the line returned
by the readline loop started on an empty accumulator holds neither the
line-feed byte 10 (it terminates the line without being appended) nor
the carriage-return byte 13 (every occurrence anywhere in the stream is
dropped). -/
theorem readline_result_no_crlf (script : List ByteReadResult) :
    ∀ p ∈ readlineLoop [] script, (10 : Nat) ∉ p.1 ∧ (13 : Nat) ∉ p.1 :=
  readlineLoop_no_crlf script [] (by simp) (by simp)

/-- C10 witness: the theorem applied to a concrete script whose stream
holds a carriage return, whose result drops it. -/
theorem readline_result_no_crlf_witness :
    (10 : Nat) ∉ ([104] : List Nat) ∧ (13 : Nat) ∉ ([104] : List Nat) :=
  readline_result_no_crlf
    [ByteReadResult.okByte 104, ByteReadResult.okByte 13,
      ByteReadResult.err IOErrorKind.timedOut] ([104], false) rfl

end GdSerialModel
